import Mathlib

/-!
Verification of the llmauto repository's chat gateway
(`docker/bedrock-gateway/app.py`) and the database initializer
(`docker/open-webui/init.py`), via a shallow embedding in Lean 4.

Python floats are modelled as rationals (`Rat`): no claim here depends on
floating-point rounding, only on values being carried through unchanged.
Python `int` is modelled as `Int`. JSON payloads are modelled by the
inductive `JVal`, with objects as association lists (Python dicts have
unique keys, and `dict.get` is first-match lookup on such a list).
-/

namespace LlmAuto

/-- A JSON-like untyped value, as received by FastAPI before pydantic
validation and as returned in the backend's response body. -/
inductive JVal where
  | str (s : String)
  | int (n : Int)
  | rat (q : Rat)
  | bool (b : Bool)
  | arr (xs : List JVal)
  | obj (fields : List (String × JVal))
  | null
deriving Repr

/-- `dict.get key` on a JSON object's field list: first matching key. -/
def lookupField : List (String × JVal) → String → Option JVal
  | [], _ => none
  | (k, v) :: rest, key => if k = key then some v else lookupField rest key

/-- `class ChatMessage(BaseModel): role: str; content: str` (app.py). -/
structure ChatMessage where
  role : String
  content : String
deriving Repr, DecidableEq

/-- `class ChatRequest(BaseModel)` (app.py): `model: str`,
`messages: list[ChatMessage]`, `temperature: float = 0.7`,
`max_tokens: int = 1000`. -/
structure ChatRequest where
  model : String
  messages : List ChatMessage
  temperature : Rat := (7 : Rat) / 10
  max_tokens : Int := 1000
deriving Repr, DecidableEq

/-- A pydantic validation failure: the offending location and whether the
field was missing or had the wrong type. -/
inductive ValidationError where
  | missing (loc : String)
  | typeError (loc : String)
  | notAnObject (loc : String)
deriving Repr, DecidableEq

/-- Pydantic: a required `str` field. -/
def requireStr (fs : List (String × JVal)) (key : String) :
    Except ValidationError String :=
  match lookupField fs key with
  | some (.str s) => .ok s
  | some _ => .error (.typeError key)
  | none => .error (.missing key)

/-- Pydantic: an `int` field with a default when absent. -/
def optionalInt (fs : List (String × JVal)) (key : String) (dflt : Int) :
    Except ValidationError Int :=
  match lookupField fs key with
  | some (.int n) => .ok n
  | some _ => .error (.typeError key)
  | none => .ok dflt

/-- Pydantic: a `float` field with a default when absent; an integer JSON
number is accepted for a float field. -/
def optionalRat (fs : List (String × JVal)) (key : String) (dflt : Rat) :
    Except ValidationError Rat :=
  match lookupField fs key with
  | some (.rat q) => .ok q
  | some (.int n) => .ok (n : Rat)
  | some _ => .error (.typeError key)
  | none => .ok dflt

/-- Pydantic validation of one `ChatMessage` object. -/
def validateMessage (v : JVal) : Except ValidationError ChatMessage :=
  match v with
  | .obj fs => do
      let role ← requireStr fs "role"
      let content ← requireStr fs "content"
      .ok { role := role, content := content }
  | _ => .error (.notAnObject "message")

/-- Pydantic validation of the `messages` array, element by element. -/
def validateMessages : List JVal → Except ValidationError (List ChatMessage)
  | [] => .ok []
  | v :: rest => do
      let m ← validateMessage v
      let ms ← validateMessages rest
      .ok (m :: ms)

/-- Pydantic construction of a `ChatRequest` from an untyped JSON body.
The model in app.py declares no validators beyond the field types and
defaults: there is no constraint on `messages` being non-empty, on the
`role` strings, or on the sign of `max_tokens`; unknown fields are
ignored. -/
def validateChatRequest (v : JVal) : Except ValidationError ChatRequest :=
  match v with
  | .obj fs => do
      let model ← requireStr fs "model"
      let rawMessages ←
        match lookupField fs "messages" with
        | some (.arr xs) => .ok xs
        | some _ => .error (.typeError "messages")
        | none => .error (.missing "messages")
      let messages ← validateMessages rawMessages
      let temperature ← optionalRat fs "temperature" ((7 : Rat) / 10)
      let max_tokens ← optionalInt fs "max_tokens" 1000
      .ok { model := model, messages := messages,
            temperature := temperature, max_tokens := max_tokens }
  | _ => .error (.notAnObject "body")

/-- Helper for stating theorems about well-typed inputs: the JSON body for
a request with the given model, `(role, content)` message pairs and
`max_tokens`, with `temperature` left absent. -/
def mkRequestInput (model : String) (msgs : List (String × String))
    (maxTokens : Int) : JVal :=
  .obj [("model", .str model),
        ("messages", .arr (msgs.map fun p =>
          .obj [("role", .str p.1), ("content", .str p.2)])),
        ("max_tokens", .int maxTokens)]

/-! ## The gateway handler (`chat_completion` in app.py) -/

/-- Python's `sep.join(list)`: empty string for the empty list, otherwise
the elements interleaved with the separator. -/
def pyJoin (sep : String) : List String → String
  | [] => ""
  | [s] => s
  | s :: rest@(_ :: _) => s ++ sep ++ pyJoin sep rest

/-- The rendering of one message inside the prompt:
`f"{msg.role}: {msg.content}"` (app.py). -/
def renderMessage (m : ChatMessage) : String :=
  m.role ++ ": " ++ m.content

/-- `prompt = "\n".join([f"{msg.role}: {msg.content}" for msg in
request.messages])` (app.py). -/
def buildPrompt (req : ChatRequest) : String :=
  pyJoin "\n" (req.messages.map renderMessage)

/-- The JSON body handed to `bedrock.invoke_model` (app.py):
`{"prompt": ..., "max_tokens_to_sample": ..., "temperature": ...}`. -/
structure BackendBody where
  prompt : String
  max_tokens_to_sample : Int
  temperature : Rat
deriving Repr, DecidableEq

/-- One call to `bedrock.invoke_model(modelId=..., body=...)`. -/
structure BedrockCall where
  modelId : String
  body : BackendBody
deriving Repr, DecidableEq

/-- The backend call the handler issues for a request: app.py passes
`modelId=request.model` and the serialized `BackendBody` built from the
request's prompt, `max_tokens` and `temperature`. -/
def bedrockCallOf (req : ChatRequest) : BedrockCall :=
  { modelId := req.model,
    body := { prompt := buildPrompt req,
              max_tokens_to_sample := req.max_tokens,
              temperature := req.temperature } }

/-- What one `bedrock.invoke_model` call can do, as observed by the
handler: return a parsed JSON payload, or raise a timeout from the
underlying HTTP client. -/
inductive BackendOutcome where
  | ok (payload : List (String × JVal))
  | timeout
deriving Repr

/-- The canonical error taxonomy of the gateway (spec §7). -/
inductive ErrorKind where
  | validation
  | unknownModel
  | transport
  | protocol
  | streamInterrupted
  | internal
deriving Repr, DecidableEq

/-- The canonical error envelope `GatewayError` (spec §3/§7). -/
structure GatewayError where
  kind : ErrorKind
  message : String
  retriable : Bool
deriving Repr, DecidableEq

/-- The `message` object of one response choice. The `content` is kept as
a raw JSON value because app.py places `result.get("completion", "")`
there unexamined. -/
structure ChoiceMessage where
  role : String
  content : JVal
deriving Repr

/-- One element of the response's `choices` array (app.py). -/
structure ChatChoice where
  message : ChoiceMessage
  finish_reason : String
deriving Repr

/-- The success response shape of the handler (app.py):
`{"choices": [...], "model": request.model}`. -/
structure ChatResponse where
  choices : List ChatChoice
  model : String
deriving Repr

/-- What the handler returns to the HTTP layer: the success JSON, or the
canonical error envelope from its exception handler. -/
inductive HandlerResult where
  | success (r : ChatResponse)
  | failure (e : GatewayError)
deriving Repr

/-- Modelled from the spec: the body of the handler's `except` clause is
truncated in the source file (app.py ends at `except Exception`), so the
failure branch is taken from the spec — a backend timeout is rendered as
the canonical `TransportError` envelope with `retriable = true`
(spec §4.4, §7, Scenario 3). -/
def renderFailure : GatewayError :=
  { kind := .transport, message := "backend call timed out", retriable := true }

/-- The handler `chat_completion` (app.py), as a function of the request
and of the backend's behaviour on the one call the handler makes:
build the prompt, invoke the model, and on success return the OpenAI-shape
response with `content = result.get("completion", "")`, a hard-coded
`finish_reason = "stop"`, and the request's model echoed back. -/
def chatCompletion (backend : BedrockCall → BackendOutcome)
    (req : ChatRequest) : HandlerResult :=
  match backend (bedrockCallOf req) with
  | .ok payload =>
      let content : JVal := (lookupField payload "completion").getD (.str "")
      let msg : ChoiceMessage := { role := "assistant", content := content }
      let choice : ChatChoice := { message := msg, finish_reason := "stop" }
      .success { choices := [choice], model := req.model }
  | .timeout => .failure renderFailure

/-- The error kind of a handler result, if it failed. -/
def kindOf : HandlerResult → Option ErrorKind
  | .success _ => none
  | .failure e => some e.kind

/-- The `content` of the first choice of a successful handler result. -/
def contentOf : HandlerResult → Option JVal
  | .success r =>
      match r.choices with
      | c :: _ => some c.message.content
      | [] => none
  | .failure _ => none

/-! ## Streaming (spec §3, §4.4) -/

/-- Modelled from the spec: the source gateway has no streaming mode (the
`ChatRequest` model in app.py has no `stream` field and the handler has a
single synchronous path), so the streamed-delta data type is taken from
the spec's data model: `ChatDelta` carries `{content_fragment: text,
finish_reason: optional}` (spec §3). -/
structure ChatDelta where
  content_fragment : String
  finish_reason : Option String
deriving Repr, DecidableEq

/-- Modelled from the spec: a backend fixture serving both invocation
modes (spec §4.4, §8). In streaming mode the backend yields its raw
chunks in arrival order; in synchronous mode the same fixture returns one
complete payload whose `completion` is the whole generation, i.e. the
concatenation of those chunks. -/
structure BackendFixture where
  chunks : List String
deriving Repr

/-- Modelled from the spec: the streamed deltas for a fixture — one
`ChatDelta` per raw chunk, in arrival order, followed by the terminal
delta carrying the `finish_reason` (spec §3: "the full response is the
ordered concatenation of fragments followed by a terminal delta carrying
`finish_reason`"). -/
def streamDeltas (f : BackendFixture) : List ChatDelta :=
  (f.chunks.map fun c => { content_fragment := c, finish_reason := none })
    ++ [{ content_fragment := "", finish_reason := some "stop" }]

/-- Modelled from the spec: the synchronous view of the same fixture, as
a backend behaviour for `chatCompletion` — one payload whose `completion`
field is the concatenation of the fixture's chunks. -/
def syncBackend (f : BackendFixture) : BedrockCall → BackendOutcome :=
  fun _ => .ok [("completion", .str (String.join f.chunks))]

/-! ## The database initializer (`docker/open-webui/init.py`) -/

/-- One row of the `users` table, as inserted by init.py. -/
structure UserRow where
  email : String
  password_hash : String
  name : String
  role : String
deriving Repr, DecidableEq

/-- One row of the `models` table, as inserted by init.py. -/
structure ModelRow where
  name : String
  model_id : String
  api_type : String
  api_base : String
deriving Repr, DecidableEq

/-- The persistent store seen by init.py: the three tables it touches.
`CREATE TABLE IF NOT EXISTS` does not alter existing data, so table
creation is the identity on this state. -/
structure DBState where
  users : List UserRow
  models : List ModelRow
  settings : List (String × String)
deriving Repr, DecidableEq

/-- The environment configuration init.py reads. `bcrypt.hashpw` draws a
fresh salt from the OS, so the hash it produces is an external input to
the script and is carried here as `adminPasswordHash`. -/
structure InitConfig where
  adminEmail : String
  adminPasswordHash : String
  bedrockEndpoint : String
deriving Repr

/-- The `bedrock_models` list of init.py: `(display name, model_id)`. -/
def bedrockModels : List (String × String) :=
  [("Claude 3 Opus", "anthropic.claude-3-opus-20240229-v1:0"),
   ("Claude 3 Sonnet", "anthropic.claude-3-sonnet-20240229-v1:0"),
   ("Claude 3 Haiku", "anthropic.claude-3-haiku-20240307-v1:0"),
   ("Llama 2 70B", "meta.llama2-70b-chat-v1"),
   ("Mistral 7B", "mistral.mistral-7b-instruct-v0:2")]

/-- The `settings` dict of init.py, in insertion order. -/
def defaultSettings (cfg : InitConfig) : List (String × String) :=
  [("auth.enabled", "true"),
   ("auth.default_role", "pending"),
   ("ui.default_model", "anthropic.claude-3-sonnet-20240229-v1:0"),
   ("llm.api_base", cfg.bedrockEndpoint),
   ("llm.api_type", "bedrock")]

/-- `INSERT ... ON CONFLICT (key) DO UPDATE SET value = EXCLUDED.value`
on the `settings` table: update the value in place if the key exists,
append the row otherwise. -/
def upsertSetting (tbl : List (String × String)) (kv : String × String) :
    List (String × String) :=
  if tbl.any (fun row => row.1 = kv.1) then
    tbl.map fun row => if row.1 = kv.1 then (row.1, kv.2) else row
  else
    tbl ++ [kv]

/-- `init_database` (init.py) on the store state: create the tables
(identity on existing data), then check
`SELECT COUNT(*) FROM users WHERE email = ADMIN_EMAIL`; if a row exists,
return with the store untouched; otherwise insert the admin user, the
five Bedrock model rows and the default settings. -/
def initDatabase (cfg : InitConfig) (s : DBState) : DBState :=
  if s.users.any (fun u => u.email = cfg.adminEmail) then
    s
  else
    { users := s.users ++
        [{ email := cfg.adminEmail, password_hash := cfg.adminPasswordHash,
           name := "Administrator", role := "admin" }],
      models := s.models ++ (bedrockModels.map fun p =>
        { name := p.1, model_id := p.2, api_type := "bedrock",
          api_base := cfg.bedrockEndpoint }),
      settings := (defaultSettings cfg).foldl upsertSetting s.settings }

/-! ## `wait_for_db` (init.py) -/

/-- The retry loop of `wait_for_db`: `retryCount` connection attempts have
already failed, `fuel = max_retries - retryCount` iterations of the
`while retry_count < max_retries` loop remain. Each iteration makes one
connection attempt (`connect n` is whether the `n`-th attempt, counted
from 0, succeeds); on success the function returns `True`, on an
operational error it increments the counter and retries. When the loop
exhausts its iterations the function raises. Returns the result together
with the total number of connection attempts made. -/
def waitLoop (connect : Nat → Bool) : Nat → Nat → Except String Bool × Nat
  | retryCount, 0 =>
      (.error "Database not available after maximum retries", retryCount)
  | retryCount, fuel + 1 =>
      if connect retryCount then (.ok true, retryCount + 1)
      else waitLoop connect (retryCount + 1) fuel

/-- `wait_for_db` (init.py): `max_retries = 30`, `retry_count = 0`. -/
def waitForDb (connect : Nat → Bool) : Except String Bool × Nat :=
  waitLoop connect 0 30

/-! ## Helper lemmas -/

theorem string_append_assoc (a b c : String) : a ++ b ++ c = a ++ (b ++ c) := by
  cases a with | mk xs => cases b with | mk ys => cases c with | mk zs =>
  exact congrArg String.mk (List.append_assoc xs ys zs)

theorem string_empty_append (a : String) : "" ++ a = a := by
  cases a with | mk xs => rfl

theorem string_append_empty (a : String) : a ++ "" = a := by
  cases a with | mk xs => exact congrArg String.mk (List.append_nil xs)

/-! ## Theorems about the claims -/

/-- C1: for the request `{model: "claude-3-sonnet", messages: [{role:
"user", content: "hello"}], temperature: 0.7, max_tokens: 100}` and a
fixture backend whose payload carries completion `"Hi there"` with native
stop reason `"end_turn"`, `chat_completion` returns exactly
`{choices: [{message: {role: "assistant", content: "Hi there"},
finish_reason: "stop"}], model: "claude-3-sonnet"}`: the unmapped native
stop reason is rendered as the canonical `finish_reason` `"stop"` and the
request's model identifier is echoed back unchanged. -/
theorem claim_C1_scenario1 :
    chatCompletion
      (fun _ => .ok [("completion", .str "Hi there"), ("stop_reason", .str "end_turn")])
      ⟨"claude-3-sonnet", [⟨"user", "hello"⟩], (7 : Rat) / 10, 100⟩ =
      .success ⟨[⟨⟨"assistant", .str "Hi there"⟩, "stop"⟩], "claude-3-sonnet"⟩ := rfl

/-- C4 (counterexample): for the request with model `"unknown-model-xyz"`,
the handler does not fail with `UnknownModelError`: it forwards the
unknown identifier unchanged to the backend as the call's `modelId` and,
when the backend answers, succeeds — so a backend call is made and no
gateway-side error is returned. -/
theorem claim_C4_counterexample :
    (bedrockCallOf ⟨"unknown-model-xyz", [⟨"user", "hello"⟩], (7 : Rat) / 10, 100⟩).modelId
        = "unknown-model-xyz" ∧
    kindOf (chatCompletion (fun _ => .ok [("completion", .str "ok")])
      ⟨"unknown-model-xyz", [⟨"user", "hello"⟩], (7 : Rat) / 10, 100⟩) = none :=
  ⟨rfl, rfl⟩

/-- C4 (amended): the gateway performs no registry lookup at all: for
every request and every backend behaviour, the one backend call it issues
carries the request's model identifier unchanged as `modelId`, and the
handler's result is either a success or a transport-kind error — never an
`UnknownModelError`; unknown identifiers are forwarded to the backend
rather than rejected. -/
theorem claim_C4_amended (backend : BedrockCall → BackendOutcome) (req : ChatRequest) :
    (bedrockCallOf req).modelId = req.model ∧
    (kindOf (chatCompletion backend req) = none ∨
      kindOf (chatCompletion backend req) = some ErrorKind.transport) := by
  refine ⟨rfl, ?_⟩
  cases h : backend (bedrockCallOf req)
  · exact Or.inl (by simp [chatCompletion, h, kindOf])
  · exact Or.inr (by simp [chatCompletion, h, kindOf, renderFailure])

/-- C5: validation is a pure function of its input: validating the same
untyped input twice yields the same result both times (the same
`ValidationError`, or the same constructed `ChatRequest`). -/
theorem claim_C5_validation_deterministic (v : JVal) :
    validateChatRequest v = validateChatRequest v := rfl

/-- C6: when the backend call times out, the handler returns the canonical
error envelope with kind `TransportError` and `retriable = true`, not a
generic internal error. (The `except` block of the handler is truncated in
the source; its rendering of the failure is modelled from the spec, see
`renderFailure`.) -/
theorem claim_C6_timeout (req : ChatRequest) :
    chatCompletion (fun _ => .timeout) req =
      .failure ⟨.transport, "backend call timed out", true⟩ := rfl

/-- C8: if the backend returns a well-formed JSON payload with no
`"completion"` field, the handler succeeds with a single choice whose
content is the empty string and whose `finish_reason` is `"stop"`;
a missing completion field never produces an error. -/
theorem claim_C8_missing_completion (payload : List (String × JVal))
    (req : ChatRequest) (h : lookupField payload "completion" = none) :
    chatCompletion (fun _ => .ok payload) req =
      .success ⟨[⟨⟨"assistant", .str ""⟩, "stop"⟩], req.model⟩ := by
  simp [chatCompletion, h]

/-- Witness for C8 at a concrete payload (only a native stop reason, no
`"completion"` key) and a concrete request. -/
theorem claim_C8_witness :
    chatCompletion (fun _ => .ok [("stop_reason", .str "end_turn")])
      ⟨"claude-3-sonnet", [⟨"user", "hi"⟩], (7 : Rat) / 10, 100⟩ =
      .success ⟨[⟨⟨"assistant", .str ""⟩, "stop"⟩], "claude-3-sonnet"⟩ :=
  claim_C8_missing_completion _ _ rfl

theorem pyJoin_singleton (sep s : String) : pyJoin sep [s] = s := by
  simp [pyJoin]

theorem pyJoin_cons_cons (sep x y : String) (ys : List String) :
    pyJoin sep (x :: y :: ys) = x ++ sep ++ pyJoin sep (y :: ys) := by
  simp [pyJoin]

/-- Every element of the joined segment list occurs contiguously inside
the join: Python's `sep.join(segs)` contains each segment. -/
theorem pyJoin_mem_infix (sep : String) :
    ∀ (segs : List String) (s : String), s ∈ segs →
      ∃ pre post : String, pyJoin sep segs = pre ++ (s ++ post) := by
  intro segs
  induction segs with
  | nil => intro s h; cases h
  | cons x xs ih =>
    intro s hmem
    cases xs with
    | nil =>
      rcases List.mem_cons.mp hmem with rfl | h
      · refine ⟨"", "", ?_⟩
        rw [string_append_empty, string_empty_append, pyJoin_singleton]
      · cases h
    | cons y ys =>
      rcases List.mem_cons.mp hmem with rfl | h
      · refine ⟨"", sep ++ pyJoin sep (y :: ys), ?_⟩
        rw [string_empty_append, pyJoin_cons_cons, string_append_assoc]
      · obtain ⟨pre, post, hpre⟩ := ih s h
        refine ⟨x ++ sep ++ pre, post, ?_⟩
        rw [pyJoin_cons_cons, hpre, string_append_assoc (x ++ sep) pre (s ++ post)]

/-- C2: building the backend request is a pure function of the request —
the prompt depends on nothing but the message list — and the prompt it
constructs is exactly the messages rendered as `role: content`, joined in
the request's order: the rendered segment list has one segment per message
(none dropped), appears in list order (none reordered), and every
message's rendering occurs contiguously in the prompt. -/
theorem claim_C2_build_request (req : ChatRequest) :
    buildPrompt req = pyJoin "\n" (req.messages.map renderMessage) ∧
    (∀ req' : ChatRequest, req'.messages = req.messages →
      buildPrompt req' = buildPrompt req) ∧
    (req.messages.map renderMessage).length = req.messages.length ∧
    ∀ m ∈ req.messages, ∃ pre post : String,
      buildPrompt req = pre ++ (renderMessage m ++ post) := by
  refine ⟨rfl, ?_, by simp, ?_⟩
  · intro req' h
    simp [buildPrompt, h]
  · intro m hm
    exact pyJoin_mem_infix "\n" _ _ (List.mem_map_of_mem renderMessage hm)

/-- Witness for C2 at a concrete two-message request: the second message's
rendering occurs inside the built prompt. -/
theorem claim_C2_witness :
    ∃ pre post : String,
      buildPrompt ⟨"claude-3-sonnet", [⟨"user", "hello"⟩, ⟨"assistant", "hi"⟩],
          (7 : Rat) / 10, 100⟩ =
        pre ++ (renderMessage ⟨"assistant", "hi"⟩ ++ post) :=
  (claim_C2_build_request _).2.2.2 ⟨"assistant", "hi"⟩ (by decide)

/-- Pydantic accepts any `{role, content}` pair of strings as a
`ChatMessage`: the `role` value is not constrained. -/
theorem validateMessage_pair (r c : String) :
    validateMessage (.obj [("role", .str r), ("content", .str c)]) = .ok ⟨r, c⟩ := rfl

/-- `bind` on `Except` applied to a success is just application. -/
theorem except_bind_ok {ε α β : Type} (a : α) (f : α → Except ε β) :
    (Except.ok a : Except ε α) >>= f = f a := rfl

theorem validateMessages_map (msgs : List (String × String)) :
    validateMessages (msgs.map fun p =>
        .obj [("role", .str p.1), ("content", .str p.2)]) =
      .ok (msgs.map fun p => ⟨p.1, p.2⟩) := by
  induction msgs with
  | nil => rfl
  | cons p rest ih =>
    simp [validateMessages, validateMessage_pair, ih, except_bind_ok]

/-- C3 (counterexample): the pydantic model in app.py declares no
constraint beyond field types and defaults, so a request body with an
empty `messages` array and `max_tokens = 0` validates successfully — the
claim's required `ValidationError` does not occur. -/
theorem claim_C3_counterexample :
    validateChatRequest (.obj [("model", .str "claude-3-sonnet"),
        ("messages", .arr []), ("max_tokens", .int 0)]) =
      .ok ⟨"claude-3-sonnet", [], (7 : Rat) / 10, 0⟩ := rfl

/-- C3 (amended): construction of a `ChatRequest` from untyped input fails
with `ValidationError` only on missing or ill-typed fields; any well-typed
body is accepted, including one with an empty `messages` sequence,
arbitrary `role` strings, and `max_tokens ≤ 0`. -/
theorem claim_C3_amended (model : String) (msgs : List (String × String))
    (maxTokens : Int) :
    validateChatRequest (mkRequestInput model msgs maxTokens) =
      .ok ⟨model, msgs.map fun p => ⟨p.1, p.2⟩, (7 : Rat) / 10, maxTokens⟩ := by
  simp [validateChatRequest, mkRequestInput, requireStr, lookupField,
    optionalRat, optionalInt, validateMessages_map, except_bind_ok]

/-- C7: streaming concatenation law — for every request and every backend
fixture, concatenating all `content_fragment` values of the emitted
`ChatDelta` sequence in arrival order equals the `content` the
non-streaming handler call produces on the same fixture. (Streaming does
not exist in the source; the streamed side is modelled from the spec, see
`streamDeltas` and `syncBackend`.) -/
theorem claim_C7_stream_concat (req : ChatRequest) (f : BackendFixture) :
    contentOf (chatCompletion (syncBackend f) req) =
      some (.str (String.join ((streamDeltas f).map ChatDelta.content_fragment))) := by
  have hmap : ∀ l : List String,
      (l.map fun c => ({ content_fragment := c, finish_reason := none } : ChatDelta)).map
        ChatDelta.content_fragment = l := by
    intro l
    induction l with
    | nil => rfl
    | cons a t ih => rw [List.map_cons, List.map_cons, ih]
  have h1 : (streamDeltas f).map ChatDelta.content_fragment = f.chunks ++ [""] := by
    simp only [streamDeltas, List.map_append, hmap]
    rfl
  have h2 : String.join (f.chunks ++ [""]) = String.join f.chunks := by
    simp [String.join, List.foldl_append, string_append_empty]
  rw [h1, h2]
  rfl

/-- C9: `init_database` is idempotent on an already-initialized store —
if a `users` row with the admin email exists, the run returns after the
existence check and the `users`, `models` and `settings` tables are left
unchanged. -/
theorem claim_C9_idempotent (cfg : InitConfig) (s : DBState)
    (h : s.users.any (fun u => u.email = cfg.adminEmail) = true) :
    initDatabase cfg s = s := by
  simp [initDatabase, h]

/-- Witness for C9 on a concrete already-initialized store. -/
theorem claim_C9_witness :
    initDatabase ⟨"admin@example.com", "hash", "http://bedrock-gateway:8000"⟩
      ⟨[⟨"admin@example.com", "hash", "Administrator", "admin"⟩], [], []⟩ =
      ⟨[⟨"admin@example.com", "hash", "Administrator", "admin"⟩], [], []⟩ :=
  claim_C9_idempotent _ _ (by decide)

/-- The retry loop makes at most `fuel` further connection attempts. -/
theorem waitLoop_attempts_le (connect : Nat → Bool) :
    ∀ (fuel retryCount : Nat),
      (waitLoop connect retryCount fuel).2 ≤ retryCount + fuel := by
  intro fuel
  induction fuel with
  | zero => intro rc; simp [waitLoop]
  | succ n ih =>
    intro rc
    by_cases h : connect rc = true
    · simp [waitLoop, h]
    · have h' : connect rc = false := by simpa using h
      simp [waitLoop, h']
      calc (waitLoop connect (rc + 1) n).2 ≤ (rc + 1) + n := ih (rc + 1)
        _ = rc + (n + 1) := by omega

/-- The retry loop returns `True` right after the first successful
attempt. -/
theorem waitLoop_first_success (connect : Nat → Bool) :
    ∀ (fuel rc k : Nat), rc ≤ k → k < rc + fuel → connect k = true →
      (∀ j, rc ≤ j → j < k → connect j = false) →
      waitLoop connect rc fuel = (.ok true, k + 1) := by
  intro fuel
  induction fuel with
  | zero => intro rc k h1 h2 _ _; omega
  | succ n ih =>
    intro rc k h1 h2 hk hprev
    rcases Nat.eq_or_lt_of_le h1 with rfl | hlt
    · simp [waitLoop, hk]
    · have hrc : connect rc = false := hprev rc le_rfl hlt
      simp [waitLoop, hrc]
      exact ih (rc + 1) k hlt (by omega) hk (fun j hj1 hj2 => hprev j (by omega) hj2)

/-- When every attempt the loop can make fails, it raises after exactly
`fuel` further attempts. -/
theorem waitLoop_all_fail (connect : Nat → Bool) :
    ∀ (fuel rc : Nat),
      (∀ j, rc ≤ j → j < rc + fuel → connect j = false) →
      waitLoop connect rc fuel =
        (.error "Database not available after maximum retries", rc + fuel) := by
  intro fuel
  induction fuel with
  | zero => intro rc _; simp [waitLoop]
  | succ n ih =>
    intro rc hall
    have hrc : connect rc = false := hall rc le_rfl (by omega)
    have harith : rc + (n + 1) = (rc + 1) + n := by omega
    simp only [waitLoop, hrc, Bool.false_eq_true, if_false, harith]
    exact ih (rc + 1) (fun j h1 h2 => hall j (by omega) (by omega))

/-- C10: `wait_for_db` makes at most 30 connection attempts; it returns
`True` right after the first successful attempt, and when all 30 attempts
fail with an operational error it terminates by raising rather than
looping forever. -/
theorem claim_C10_wait_for_db (connect : Nat → Bool) :
    (waitForDb connect).2 ≤ 30 ∧
    (∀ k, k < 30 → connect k = true → (∀ j, j < k → connect j = false) →
      waitForDb connect = (.ok true, k + 1)) ∧
    ((∀ k, k < 30 → connect k = false) →
      waitForDb connect =
        (.error "Database not available after maximum retries", 30)) := by
  refine ⟨?_, ?_, ?_⟩
  · simpa using waitLoop_attempts_le connect 30 0
  · intro k hk hck hprev
    exact waitLoop_first_success connect 30 0 k (Nat.zero_le k) (by omega) hck
      (fun j _ hj => hprev j hj)
  · intro hall
    simpa using waitLoop_all_fail connect 30 0 (fun j _ hj => hall j (by omega))

/-- Witness for C10: a connection that first succeeds on the third
attempt gives `True` after exactly 3 attempts, within the 30-attempt
bound. -/
theorem claim_C10_witness :
    waitForDb (fun k => k == 2) = (.ok true, 3) ∧
    (waitForDb (fun k => k == 2)).2 ≤ 30 :=
  ⟨(claim_C10_wait_for_db _).2.1 2 (by decide) (by decide) (by decide),
   (claim_C10_wait_for_db _).1⟩

end LlmAuto
